import Mathlib

/-!
Lifecycle robot: the `/close` and `/reopen` comment commands.

A shallow embedding of `robot.go`.  The handler is pure apart from the calls it
makes on its client (`iClient`); the client is embedded as a record of state
transformers over an arbitrary client state `σ`, and every call the robot makes
is appended, with the error it returned, to a trace carried next to that state.

Go's `error` is `Option String` (`none` is `nil`).  The getters of the go-github
event types return the zero value on a nil pointer, so the event is embedded
with plain fields holding what the getters return.  A comment body is a
sequence of Unicode code points, which is what the pattern matcher reads.
-/

namespace Lifecycle

/-! ## Constants -/

/-- The Go `error` interface: `none` is `nil`, `some msg` an error value. -/
abbrev error := Option String

/-- Constant `botName`. -/
def botName : String := "lifecycle"

/-- Constant `optionFailureMessage`, a format string with two `%s` verbs; the
function is `fmt.Sprintf(optionFailureMessage, a, b)` on two strings. -/
def optionFailureMessage (a b : String) : String :=
  "***@" ++ a ++ "*** you can't " ++ b ++ " it unless you are the author of it or a collaborator."

/-- Constant `createAction`. -/
def createAction : String := "created"

/-! ## The two command patterns

`regexp.MustCompile("(?mi)^/reopen\\s*$")` and the same for `/close`.  A pattern
of this shape is a concatenation of empty-width assertions, case-folded literal
runes and one starred character class; `MatchString` is an unanchored search.
-/

/-- Runes matched by a literal ASCII rune of a pattern under flag `i`: the orbit
of the rune under Unicode simple case folding (`unicode.SimpleFold`).  For an
ASCII letter this is the two cases, and for `k` and `s` also U+212A (Kelvin
sign) and U+017F (long s); any other ASCII rune matches itself only.  Both
patterns are ASCII. -/
def foldOrbit (c : Char) : List Char :=
  if c = 'k' ∨ c = 'K' then ['k', 'K', Char.ofNat 0x212A]
  else if c = 's' ∨ c = 'S' then ['s', 'S', Char.ofNat 0x17F]
  else if c.isLower then [c, c.toUpper]
  else if c.isUpper then [c.toLower, c]
  else [c]

/-- Perl class `\s` of RE2 syntax: `[\t\n\f\r ]`. -/
def isPerlSpace (c : Char) : Bool :=
  c = '\t' || c = '\n' || c = Char.ofNat 0x0C || c = '\r' || c = ' '

/-- One item of a compiled pattern. -/
inductive Item where
  /-- `^` under flag `m`: at the beginning of the text or right after a newline. -/
  | beginLine
  /-- `$` under flag `m`: at the end of the text or right before a newline. -/
  | endLine
  /-- A literal rune under flag `i`. -/
  | foldLit (c : Char)
  /-- `\s*`. -/
  | starSpace

/-- Zero or more runes of `\s`, then the continuation `k`; `prev` is the rune
before the current position, `rest` the text from the current position on. -/
def matchStarSpace (k : Option Char → List Char → Bool) :
    Option Char → List Char → Bool
  | prev, [] => k prev []
  | prev, c :: cs => (isPerlSpace c && matchStarSpace k (some c) cs) || k prev (c :: cs)

/-- Does the pattern match starting at the current position? -/
def matchItems : List Item → Option Char → List Char → Bool
  | [], _, _ => true
  | Item.beginLine :: is, prev, rest =>
      (prev = none || prev = some '\n') && matchItems is prev rest
  | Item.endLine :: is, prev, rest =>
      (rest = [] || rest.head? = some '\n') && matchItems is prev rest
  | Item.foldLit c :: is, _, rest =>
      match rest with
      | [] => false
      | x :: xs => (foldOrbit c).contains x && matchItems is (some x) xs
  | Item.starSpace :: is, prev, rest => matchStarSpace (matchItems is) prev rest

/-- Unanchored search: try every start position from the current one on. -/
def searchItems (is : List Item) : Option Char → List Char → Bool
  | prev, [] => matchItems is prev []
  | prev, c :: cs => matchItems is prev (c :: cs) || searchItems is (some c) cs

/-- Method `(*Regexp).MatchString`. -/
def MatchString (re : List Item) (s : String) : Bool :=
  searchItems re none s.data

/-- Pattern `(?mi)^/reopen\s*$`. -/
def reopenRe : List Item :=
  [Item.beginLine, Item.foldLit '/', Item.foldLit 'r', Item.foldLit 'e', Item.foldLit 'o',
   Item.foldLit 'p', Item.foldLit 'e', Item.foldLit 'n', Item.starSpace, Item.endLine]

/-- Pattern `(?mi)^/close\s*$`. -/
def closeRe : List Item :=
  [Item.beginLine, Item.foldLit '/', Item.foldLit 'c', Item.foldLit 'l', Item.foldLit 'o',
   Item.foldLit 's', Item.foldLit 'e', Item.starSpace, Item.endLine]

/-! ## Event data (go-github), as seen through its getters -/

/-- Type `sdk.User`, read through `GetLogin`. -/
structure User where
  Login : String

/-- Type `sdk.Repository`, read through `GetOwner` and `GetName`. -/
structure Repository where
  Owner : User
  Name : String

/-- Type `sdk.Issue`, read through `GetNumber`, `GetState`, `GetUser` and
`IsPullRequest`; `PullRequestLinks` is `true` when the pointer of that name is
not nil. -/
structure Issue where
  Number : Int
  State : String
  User : User
  PullRequestLinks : Bool

/-- Method `(*sdk.Issue).IsPullRequest`: the issue carries pull request links. -/
def Issue.IsPullRequest (i : Issue) : Bool := i.PullRequestLinks

/-- Type `sdk.IssueComment`, read through `GetBody` and `GetUser`. -/
structure IssueComment where
  Body : String
  User : User

/-- Type `sdk.IssueCommentEvent`, read through `GetAction`, `GetRepo`,
`GetIssue` and `GetComment`. -/
structure IssueCommentEvent where
  Action : String
  Repo : Repository
  Issue : Issue
  Comment : IssueComment

/-- Type `gc.PRInfo`. -/
structure PRInfo where
  Org : String
  Repo : String
  Number : Int
deriving DecidableEq

/-- Library function `gc.GetOrgRepo`: the owner's login and the repository name. -/
def GetOrgRepo (r : Repository) : String × String := (r.Owner.Login, r.Name)

/-- Type `sdk.PullRequest`, the request of `UpdatePR`; the robot never builds one. -/
structure PullRequest where
  State : String
deriving DecidableEq

/-- Type `sdk.IssueRequest`, the request of `UpdateIssue`; the robot never builds one. -/
structure IssueRequest where
  State : String
deriving DecidableEq

/-! ## The client and the trace of calls -/

/-- One call on `iClient`, with its arguments. -/
inductive Call where
  | UpdatePR (pr : PRInfo) (request : PullRequest)
  | UpdateIssue (p : PRInfo) (iss : IssueRequest)
  | CreateIssueComment (p : PRInfo) (comment : String)
  | IsCollaborator (pr : PRInfo) (login : String)
  | ClosePR (pr : PRInfo)
  | ReopenPR (pr : PRInfo)
  | CloseIssue (pr : PRInfo)
  | ReopenIssue (pr : PRInfo)
deriving DecidableEq

/-- A call that was made, and the error it returned. -/
structure Entry where
  call : Call
  err : error
deriving DecidableEq

/-- Interface `iClient`.  Each method reads and updates the client state `σ`
(the remote platform), so a method may answer differently from call to call. -/
structure iClient (σ : Type) where
  UpdatePR : PRInfo → PullRequest → σ → (Option PullRequest × error) × σ
  UpdateIssue : PRInfo → IssueRequest → σ → error × σ
  CreateIssueComment : PRInfo → String → σ → error × σ
  IsCollaborator : PRInfo → String → σ → (Bool × error) × σ
  ClosePR : PRInfo → σ → error × σ
  ReopenPR : PRInfo → σ → error × σ
  CloseIssue : PRInfo → σ → error × σ
  ReopenIssue : PRInfo → σ → error × σ

/-- The client state together with the calls made so far, oldest first. -/
structure World (σ : Type) where
  st : σ
  trace : List Entry
deriving DecidableEq

/-- Type `robot`. -/
structure robot (σ : Type) where
  cli : iClient σ

/-- Function `newRobot`. -/
def newRobot {σ : Type} (cli : iClient σ) : robot σ := { cli := cli }

/-- The call `bot.cli.CreateIssueComment(p, comment)`, recorded. -/
def robot.callCreateIssueComment {σ : Type} (bot : robot σ) (p : PRInfo) (comment : String)
    (w : World σ) : error × World σ :=
  let r := bot.cli.CreateIssueComment p comment w.st
  (r.1, { st := r.2, trace := w.trace ++ [{ call := Call.CreateIssueComment p comment, err := r.1 }] })

/-- The call `bot.cli.IsCollaborator(p, login)`, recorded. -/
def robot.callIsCollaborator {σ : Type} (bot : robot σ) (p : PRInfo) (login : String)
    (w : World σ) : (Bool × error) × World σ :=
  let r := bot.cli.IsCollaborator p login w.st
  (r.1, { st := r.2, trace := w.trace ++ [{ call := Call.IsCollaborator p login, err := r.1.2 }] })

/-- The call `bot.cli.ClosePR(p)`, recorded. -/
def robot.callClosePR {σ : Type} (bot : robot σ) (p : PRInfo) (w : World σ) : error × World σ :=
  let r := bot.cli.ClosePR p w.st
  (r.1, { st := r.2, trace := w.trace ++ [{ call := Call.ClosePR p, err := r.1 }] })

/-- The call `bot.cli.ReopenPR(p)`, recorded. -/
def robot.callReopenPR {σ : Type} (bot : robot σ) (p : PRInfo) (w : World σ) : error × World σ :=
  let r := bot.cli.ReopenPR p w.st
  (r.1, { st := r.2, trace := w.trace ++ [{ call := Call.ReopenPR p, err := r.1 }] })

/-- The call `bot.cli.CloseIssue(p)`, recorded. -/
def robot.callCloseIssue {σ : Type} (bot : robot σ) (p : PRInfo) (w : World σ) : error × World σ :=
  let r := bot.cli.CloseIssue p w.st
  (r.1, { st := r.2, trace := w.trace ++ [{ call := Call.CloseIssue p, err := r.1 }] })

/-- The call `bot.cli.ReopenIssue(p)`, recorded. -/
def robot.callReopenIssue {σ : Type} (bot : robot σ) (p : PRInfo) (w : World σ) : error × World σ :=
  let r := bot.cli.ReopenIssue p w.st
  (r.1, { st := r.2, trace := w.trace ++ [{ call := Call.ReopenIssue p, err := r.1 }] })

/-! ## Configuration

The types `configuration` and `botConfig` and the method `configFor` are
declared in a file of the package that is not part of the sources at hand, so
the record of one repository is a type parameter `β` and a `*configuration`
value is given by what its `configFor` returns.
-/

/-- Interface `config.Config`: either a `*configuration`, given by its method
`configFor` (`none` is a nil `*botConfig`), or a value of some other dynamic
type (a nil interface included). -/
inductive Config (β : Type) where
  | configuration (configFor : String → String → Option β)
  | other

/-- Method `getConfig`: the pair `(*botConfig, error)`. -/
def robot.getConfig {σ β : Type} (_bot : robot σ) (cfg : Config β) (org repo : String) :
    Option β × error :=
  match cfg with
  | Config.other => (none, some "can't convert to configuration")
  | Config.configuration configFor =>
      match configFor org repo with
      | some bc => (some bc, none)
      | none => (none, some ("no config for this repo:" ++ org ++ "/" ++ repo))

/-! ## The handler -/

/-- Method `hasPermission`. -/
def robot.hasPermission {σ : Type} (bot : robot σ) (p : PRInfo) (commenter author : String)
    (w : World σ) : (Bool × error) × World σ :=
  if commenter = author then ((true, none), w)
  else bot.callIsCollaborator p commenter w

/-- Method `open`. -/
def robot.open {σ : Type} (bot : robot σ) (e : IssueCommentEvent) (p : PRInfo)
    (commenter author : String) (w : World σ) : error × World σ :=
  let r := bot.hasPermission p commenter author w
  if r.1.2 ≠ none then (r.1.2, r.2)
  else if !r.1.1 then
    bot.callCreateIssueComment p (optionFailureMessage commenter "reopen") r.2
  else if e.Issue.IsPullRequest then bot.callReopenPR p r.2
  else bot.callReopenIssue p r.2

/-- Method `close`. -/
def robot.close {σ : Type} (bot : robot σ) (e : IssueCommentEvent) (p : PRInfo)
    (commenter author : String) (w : World σ) : error × World σ :=
  let r := bot.hasPermission p commenter author w
  if r.1.2 ≠ none then (r.1.2, r.2)
  else if !r.1.1 then
    bot.callCreateIssueComment p (optionFailureMessage commenter "reopen") r.2
  else if e.Issue.IsPullRequest then bot.callClosePR p r.2
  else bot.callCloseIssue p r.2

/-- Method `handleLifeCycle`. -/
def robot.handleLifeCycle {σ : Type} (bot : robot σ) (e : IssueCommentEvent) (p : PRInfo)
    (w : World σ) : error × World σ :=
  let author := e.Issue.User.Login
  let comment := e.Comment.Body
  let commenter := e.Comment.User.Login
  if e.Issue.State = "closed" ∧ MatchString reopenRe comment = true then
    bot.open e p commenter author w
  else if e.Issue.State = "open" ∧ MatchString closeRe comment = true then
    bot.close e p commenter author w
  else (none, w)

/-- Method `handleIssueCommentEvent`.  The logger is only written to on a branch
that returns nil without calling the client, and is left out. -/
def robot.handleIssueCommentEvent {σ β : Type} (bot : robot σ) (e : IssueCommentEvent)
    (cfg : Config β) (w : World σ) : error × World σ :=
  if e.Action ≠ createAction then (none, w)
  else
    let orgRepo := GetOrgRepo e.Repo
    let r := bot.getConfig cfg orgRepo.1 orgRepo.2
    if r.2 ≠ none then (r.2, w)
    else if r.1.isNone then (none, w)
    else
      let info : PRInfo := { Org := orgRepo.1, Repo := orgRepo.2, Number := e.Issue.Number }
      bot.handleLifeCycle e info w

/-! ## Observing a run -/

/-- The `PRInfo` that `handleIssueCommentEvent` builds from the event. -/
def eventInfo (e : IssueCommentEvent) : PRInfo :=
  { Org := (GetOrgRepo e.Repo).1, Repo := (GetOrgRepo e.Repo).2, Number := e.Issue.Number }

/-- The call posts a comment. -/
def Call.isComment : Call → Bool
  | Call.CreateIssueComment _ _ => true
  | _ => false

/-- The call changes the state of the item: one of `ReopenPR`, `ReopenIssue`,
`ClosePR`, `CloseIssue`. -/
def Call.isStateChange : Call → Bool
  | Call.ReopenPR _ => true
  | Call.ReopenIssue _ => true
  | Call.ClosePR _ => true
  | Call.CloseIssue _ => true
  | _ => false

/-- The call is `UpdatePR` or `UpdateIssue`. -/
def Call.isUpdate : Call → Bool
  | Call.UpdatePR _ _ => true
  | Call.UpdateIssue _ _ => true
  | _ => false

/-- The call is `ReopenPR`. -/
def Call.isReopenPR : Call → Bool
  | Call.ReopenPR _ => true
  | _ => false

/-- The event reaches the open flow or the close flow of `handleLifeCycle`. -/
def reachesFlow (e : IssueCommentEvent) : Prop :=
  (e.Issue.State = "closed" ∧ MatchString reopenRe e.Comment.Body = true) ∨
  (e.Issue.State = "open" ∧ MatchString closeRe e.Comment.Body = true)

/-- The shapes the calls `new` of one run of the open or close flow can take,
`res` being the error the flow returns: a failed `IsCollaborator` query alone,
or one comment or state change, alone or after a successful `IsCollaborator`
query. -/
def FlowShape (p : PRInfo) (commenter : String) (res : error) (new : List Entry) : Prop :=
  (∃ msg : String, res = some msg ∧
      new = [{ call := Call.IsCollaborator p commenter, err := some msg }]) ∨
  (∃ (pre : List Entry) (c : Call),
      (pre = [] ∨ pre = [{ call := Call.IsCollaborator p commenter, err := none }]) ∧
      (c.isComment || c.isStateChange) = true ∧
      new = pre ++ [{ call := c, err := res }])

/-! ## Concrete inputs -/

/-- A client whose state counts the calls made on it; `IsCollaborator` always
answers `collab`, and every other method returns the error `res`. -/
def stubClient (collab : Bool × error) (res : error) : iClient Nat where
  UpdatePR := fun _ _ s => ((none, res), s + 1)
  UpdateIssue := fun _ _ s => (res, s + 1)
  CreateIssueComment := fun _ _ s => (res, s + 1)
  IsCollaborator := fun _ _ s => (collab, s + 1)
  ClosePR := fun _ s => (res, s + 1)
  ReopenPR := fun _ s => (res, s + 1)
  CloseIssue := fun _ s => (res, s + 1)
  ReopenIssue := fun _ s => (res, s + 1)

/-- A comment event with action `created` on item `number` of `repo`. -/
def commentEvent (repo : Repository) (number : Int) (state : String) (isPR : Bool)
    (author commenter body : String) : IssueCommentEvent :=
  { Action := "created", Repo := repo,
    Issue := { Number := number, State := state, User := { Login := author },
               PullRequestLinks := isPR },
    Comment := { Body := body, User := { Login := commenter } } }

/-- The example event: a closed pull request of `alice`, commented by `alice`. -/
def exampleEvent (repo : Repository) (number : Int) (body : String) : IssueCommentEvent :=
  commentEvent repo number "closed" true "alice" "alice" body

/-- A repository to run the examples on. -/
def exampleRepo : Repository := { Owner := { Login := "openeuler" }, Name := "community" }

/-- A configuration that has a record for every repository. -/
def exampleConfig : Config Unit := Config.configuration (fun _ _ => some ())

/-! ## Matching lemmas -/

theorem matchStarSpace_replicate (k : Option Char → List Char → Bool)
    (hk : ∀ prev, k prev [] = true) (n : Nat) (prev : Option Char) :
    matchStarSpace k prev (List.replicate n ' ') = true := by
  induction n generalizing prev with
  | zero => simp [matchStarSpace, hk]
  | succ n ih => simp [List.replicate_succ, matchStarSpace, ih, isPerlSpace]

theorem matchItems_tail_spaces (n : Nat) (prev : Option Char) :
    matchItems [Item.starSpace, Item.endLine] prev (List.replicate n ' ') = true := by
  have h := matchStarSpace_replicate (matchItems [Item.endLine])
    (by intro p; simp [matchItems]) n prev
  rw [matchItems]
  exact h

theorem matchItems_foldLit (c x : Char) (is : List Item) (prev : Option Char) (xs : List Char)
    (hx : (foldOrbit c).contains x = true) (h : matchItems is (some x) xs = true) :
    matchItems (Item.foldLit c :: is) prev (x :: xs) = true := by
  rw [matchItems, hx, h]
  rfl

theorem searchItems_of_matchItems (is : List Item) (prev : Option Char) (rest : List Char)
    (h : matchItems is prev rest = true) : searchItems is prev rest = true := by
  cases rest with
  | nil => rw [searchItems]; exact h
  | cons c cs => rw [searchItems, h]; rfl

theorem foldOrbit_contains_of_case (c x : Char) (hc : c ∈ "/reopen".data)
    (h : x = c ∨ x = c.toUpper) : (foldOrbit c).contains x = true := by
  have hc2 : c = '/' ∨ c = 'r' ∨ c = 'e' ∨ c = 'o' ∨ c = 'p' ∨ c = 'n' := by
    have : "/reopen".data = ['/', 'r', 'e', 'o', 'p', 'e', 'n'] := rfl
    rw [this] at hc
    simp at hc
    tauto
  rcases hc2 with rfl | rfl | rfl | rfl | rfl | rfl <;> rcases h with rfl | rfl <;> decide

theorem reopenRe_matches_command (body : List Char) (n : Nat)
    (h : List.Forall₂ (fun x c => x = c ∨ x = c.toUpper) body "/reopen".data) :
    MatchString reopenRe (String.mk (body ++ List.replicate n ' ')) = true := by
  have hd : "/reopen".data = ['/', 'r', 'e', 'o', 'p', 'e', 'n'] := rfl
  rw [hd] at h
  simp only [List.forall₂_cons_right_iff, List.forall₂_nil_right_iff] at h
  obtain ⟨x0, l0, h0, ⟨x1, l1, h1, ⟨x2, l2, h2, ⟨x3, l3, h3, ⟨x4, l4, h4, ⟨x5, l5, h5,
    ⟨x6, l6, h6, rfl, rfl⟩, rfl⟩, rfl⟩, rfl⟩, rfl⟩, rfl⟩, rfl⟩ := h
  have c0 := foldOrbit_contains_of_case _ _ (by decide) h0
  have c1 := foldOrbit_contains_of_case _ _ (by decide) h1
  have c2 := foldOrbit_contains_of_case _ _ (by decide) h2
  have c3 := foldOrbit_contains_of_case _ _ (by decide) h3
  have c4 := foldOrbit_contains_of_case _ _ (by decide) h4
  have c5 := foldOrbit_contains_of_case _ _ (by decide) h5
  have c6 := foldOrbit_contains_of_case _ _ (by decide) h6
  apply searchItems_of_matchItems
  show matchItems reopenRe none (x0 :: x1 :: x2 :: x3 :: x4 :: x5 :: x6 :: List.replicate n ' ') = true
  rw [reopenRe, matchItems]
  rw [Bool.and_eq_true]
  refine ⟨by decide, ?_⟩
  exact matchItems_foldLit _ _ _ _ _ c0 <| matchItems_foldLit _ _ _ _ _ c1 <|
    matchItems_foldLit _ _ _ _ _ c2 <| matchItems_foldLit _ _ _ _ _ c3 <|
    matchItems_foldLit _ _ _ _ _ c4 <| matchItems_foldLit _ _ _ _ _ c5 <|
    matchItems_foldLit _ _ _ _ _ c6 <| matchItems_tail_spaces n _

/-! ## Dispatch, missing configuration, ignored events -/

theorem handleIssueCommentEvent_of_config {σ β : Type} (bot : robot σ) (e : IssueCommentEvent)
    (cf : String → String → Option β) (bc : β) (w : World σ)
    (hact : e.Action = "created")
    (hcfg : cf e.Repo.Owner.Login e.Repo.Name = some bc) :
    bot.handleIssueCommentEvent e (Config.configuration cf) w
      = bot.handleLifeCycle e (eventInfo e) w := by
  simp [robot.handleIssueCommentEvent, robot.getConfig, GetOrgRepo, createAction, hact, hcfg,
    eventInfo]

theorem handleLifeCycle_of_reopen {σ : Type} (bot : robot σ) (e : IssueCommentEvent) (p : PRInfo)
    (w : World σ) (hstate : e.Issue.State = "closed")
    (hmatch : MatchString reopenRe e.Comment.Body = true) :
    bot.handleLifeCycle e p w = bot.open e p e.Comment.User.Login e.Issue.User.Login w := by
  simp [robot.handleLifeCycle, hstate, hmatch]

theorem handleLifeCycle_of_close {σ : Type} (bot : robot σ) (e : IssueCommentEvent) (p : PRInfo)
    (w : World σ) (hstate : e.Issue.State = "open")
    (hmatch : MatchString closeRe e.Comment.Body = true) :
    bot.handleLifeCycle e p w = bot.close e p e.Comment.User.Login e.Issue.User.Login w := by
  have h : ¬ ("open" = "closed") := by decide
  simp [robot.handleLifeCycle, hstate, hmatch, h]

theorem optionFailureMessage_reopen (commenter : String) :
    optionFailureMessage commenter "reopen"
      = "***@" ++ commenter
          ++ "*** you can't reopen it unless you are the author of it or a collaborator." := by
  unfold optionFailureMessage
  rw [String.append_assoc, String.append_assoc, String.append_assoc, String.append_assoc]
  rfl

/-- C8: an event whose action is not `created` is ignored: whatever the
configuration (of the right type or not, with or without a record for the
repository), the handler returns nil and leaves the client state and the trace
of calls as they were. -/
theorem handleIssueCommentEvent_other_action {σ β : Type} (bot : robot σ)
    (e : IssueCommentEvent) (cfg : Config β) (w : World σ)
    (hact : e.Action ≠ "created") :
    bot.handleIssueCommentEvent e cfg w = (none, w) := by
  simp [robot.handleIssueCommentEvent, createAction, hact]

theorem handleIssueCommentEvent_other_action_witness :
    (newRobot (stubClient (true, none) none)).handleIssueCommentEvent
        { commentEvent exampleRepo 7 "open" false "alice" "alice" "/close" with Action := "edited" }
        (Config.other : Config Unit) ⟨0, []⟩
      = (none, ⟨0, []⟩) :=
  handleIssueCommentEvent_other_action _ _ _ _ (by decide)

/-- C7: for a `created` event whose repository has no record in the
configuration (`configFor` returns nil), the handler returns a non-nil error and
leaves the client state and the trace of calls as they were, whatever the item
state and the comment. -/
theorem handleIssueCommentEvent_missing_config {σ β : Type} (bot : robot σ)
    (e : IssueCommentEvent) (cf : String → String → Option β) (w : World σ)
    (hact : e.Action = "created")
    (hcfg : cf e.Repo.Owner.Login e.Repo.Name = none) :
    (bot.handleIssueCommentEvent e (Config.configuration cf) w).1
        = some ("no config for this repo:" ++ e.Repo.Owner.Login ++ "/" ++ e.Repo.Name) ∧
      (bot.handleIssueCommentEvent e (Config.configuration cf) w).1 ≠ none ∧
      (bot.handleIssueCommentEvent e (Config.configuration cf) w).2 = w := by
  simp [robot.handleIssueCommentEvent, robot.getConfig, GetOrgRepo, createAction, hact, hcfg]

theorem handleIssueCommentEvent_missing_config_witness :
    ((newRobot (stubClient (true, none) none)).handleIssueCommentEvent
        (exampleEvent exampleRepo 7 "/reopen")
        (Config.configuration (fun _ _ => (none : Option Unit))) ⟨0, []⟩).1
        = some ("no config for this repo:" ++ "openeuler" ++ "/" ++ "community") ∧
      ((newRobot (stubClient (true, none) none)).handleIssueCommentEvent
        (exampleEvent exampleRepo 7 "/reopen")
        (Config.configuration (fun _ _ => (none : Option Unit))) ⟨0, []⟩).1 ≠ none ∧
      ((newRobot (stubClient (true, none) none)).handleIssueCommentEvent
        (exampleEvent exampleRepo 7 "/reopen")
        (Config.configuration (fun _ _ => (none : Option Unit))) ⟨0, []⟩).2 = ⟨0, []⟩ :=
  handleIssueCommentEvent_missing_config _ (exampleEvent exampleRepo 7 "/reopen") _ _ rfl rfl

/-- C6: a comment that is exactly `/reopened` or exactly `/reopen extra`
matches neither command pattern, and `handleLifeCycle` returns nil and leaves
the client state and the trace of calls as they were, whatever the item state,
the author, the commenter and the kind of item. -/
theorem handleLifeCycle_near_miss {σ : Type} (bot : robot σ) (e : IssueCommentEvent)
    (p : PRInfo) (w : World σ)
    (hbody : e.Comment.Body = "/reopened" ∨ e.Comment.Body = "/reopen extra") :
    MatchString reopenRe e.Comment.Body = false ∧
      MatchString closeRe e.Comment.Body = false ∧
      bot.handleLifeCycle e p w = (none, w) := by
  have h1 : MatchString reopenRe "/reopened" = false := by decide
  have h2 : MatchString closeRe "/reopened" = false := by decide
  have h3 : MatchString reopenRe "/reopen extra" = false := by decide
  have h4 : MatchString closeRe "/reopen extra" = false := by decide
  rcases hbody with hb | hb <;> simp [robot.handleLifeCycle, hb, h1, h2, h3, h4]

theorem handleLifeCycle_near_miss_witness :
    MatchString reopenRe "/reopen extra" = false ∧
      MatchString closeRe "/reopen extra" = false ∧
      (newRobot (stubClient (true, none) none)).handleLifeCycle
          (exampleEvent exampleRepo 7 "/reopen extra") ⟨"openeuler", "community", 7⟩ ⟨0, []⟩
        = (none, ⟨0, []⟩) :=
  handleLifeCycle_near_miss _ (exampleEvent exampleRepo 7 "/reopen extra") _ _ (Or.inr rfl)

/-! ## The reopen command -/

/-- C1 (as stated, refuted): on the example event, with the two leading spaces
in the comment body, the handler does not make exactly one `ReopenPR` call: it
makes none. -/
theorem example_event_makes_no_ReopenPR_call :
    ¬ ((((newRobot (stubClient (false, none) none)).handleIssueCommentEvent
            (exampleEvent exampleRepo 7 "  /reopen  \n") exampleConfig ⟨0, []⟩).2.trace.filter
          (fun en => en.call.isReopenPR)).length = 1 ∧
        (((newRobot (stubClient (false, none) none)).handleIssueCommentEvent
            (exampleEvent exampleRepo 7 "  /reopen  \n") exampleConfig ⟨0, []⟩).2.trace.filter
          (fun en => en.call.isComment)).length = 0) := by
  decide

/-- C1 (amended): on the example event as written (comment `  /reopen  \n`,
two leading spaces) the reopen pattern does not match and the handler returns
nil without calling the client; with the two leading spaces removed (comment
`/reopen  \n`) it makes exactly one call, `ReopenPR` on the item, posts no
comment and returns the result of that call. -/
theorem example_event_reopen {σ β : Type} (bot : robot σ) (repo : Repository) (number : Int)
    (cf : String → String → Option β) (bc : β) (w : World σ)
    (hcfg : cf repo.Owner.Login repo.Name = some bc) :
    bot.handleIssueCommentEvent (exampleEvent repo number "  /reopen  \n")
        (Config.configuration cf) w = (none, w) ∧
      (bot.handleIssueCommentEvent (exampleEvent repo number "/reopen  \n")
        (Config.configuration cf) w).2.trace
        = w.trace ++ [{ call := Call.ReopenPR ⟨repo.Owner.Login, repo.Name, number⟩,
                        err := (bot.cli.ReopenPR ⟨repo.Owner.Login, repo.Name, number⟩ w.st).1 }] ∧
      (bot.handleIssueCommentEvent (exampleEvent repo number "/reopen  \n")
        (Config.configuration cf) w).1
        = (bot.cli.ReopenPR ⟨repo.Owner.Login, repo.Name, number⟩ w.st).1 := by
  have h1 : MatchString reopenRe "  /reopen  \n" = false := by decide
  have h2 : MatchString reopenRe "/reopen  \n" = true := by decide
  have h3 : ¬ ("closed" = "open") := by decide
  refine ⟨?_, ?_, ?_⟩
  · rw [handleIssueCommentEvent_of_config bot _ cf bc w rfl hcfg]
    simp [robot.handleLifeCycle, exampleEvent, commentEvent, h1, h3]
  · rw [handleIssueCommentEvent_of_config bot _ cf bc w rfl hcfg]
    simp [robot.handleLifeCycle, exampleEvent, commentEvent, h2, robot.open, robot.hasPermission,
      Issue.IsPullRequest, robot.callReopenPR, eventInfo, GetOrgRepo]
  · rw [handleIssueCommentEvent_of_config bot _ cf bc w rfl hcfg]
    simp [robot.handleLifeCycle, exampleEvent, commentEvent, h2, robot.open, robot.hasPermission,
      Issue.IsPullRequest, robot.callReopenPR, eventInfo, GetOrgRepo]

theorem example_event_reopen_witness :
    (newRobot (stubClient (false, none) none)).handleIssueCommentEvent
        (exampleEvent exampleRepo 7 "  /reopen  \n")
        (Config.configuration (fun _ _ => some ())) ⟨0, []⟩ = (none, ⟨0, []⟩) ∧
      ((newRobot (stubClient (false, none) none)).handleIssueCommentEvent
        (exampleEvent exampleRepo 7 "/reopen  \n")
        (Config.configuration (fun _ _ => some ())) ⟨0, []⟩).2.trace
        = [] ++ [{ call := Call.ReopenPR ⟨"openeuler", "community", 7⟩,
                   err := ((stubClient (false, none) none).ReopenPR
                            ⟨"openeuler", "community", 7⟩ 0).1 }] ∧
      ((newRobot (stubClient (false, none) none)).handleIssueCommentEvent
        (exampleEvent exampleRepo 7 "/reopen  \n")
        (Config.configuration (fun _ _ => some ())) ⟨0, []⟩).1
        = ((stubClient (false, none) none).ReopenPR ⟨"openeuler", "community", 7⟩ 0).1 :=
  example_event_reopen (newRobot (stubClient (false, none) none)) exampleRepo 7
    (fun _ _ => some ()) () ⟨0, []⟩ rfl

/-- C2: for a `created` event on a closed item of a configured repository whose
comment is `/reopen` in any letter case followed by `n` spaces, and whose
commenter is the author or is reported a collaborator by `IsCollaborator`
(answer `true`, nil error): after the permission check (no call for the author,
one successful `IsCollaborator` call otherwise) the handler makes exactly one
more call, `ReopenPR` for a pull request and `ReopenIssue` otherwise, posts no
comment, and returns the error of that call. -/
theorem reopen_by_authorized_commenter {σ β : Type} (bot : robot σ) (e : IssueCommentEvent)
    (cf : String → String → Option β) (bc : β) (w : World σ) (body : List Char) (n : Nat)
    (hact : e.Action = "created")
    (hcfg : cf e.Repo.Owner.Login e.Repo.Name = some bc)
    (hstate : e.Issue.State = "closed")
    (hbody : List.Forall₂ (fun x c => x = c ∨ x = c.toUpper) body "/reopen".data)
    (hcomment : e.Comment.Body = String.mk (body ++ List.replicate n ' '))
    (hperm : e.Comment.User.Login = e.Issue.User.Login ∨
      (bot.cli.IsCollaborator (eventInfo e) e.Comment.User.Login w.st).1 = (true, none)) :
    ∃ w1 : World σ,
      w1 = (bot.hasPermission (eventInfo e) e.Comment.User.Login e.Issue.User.Login w).2 ∧
      w1.trace = w.trace ++
        (if e.Comment.User.Login = e.Issue.User.Login then []
         else [{ call := Call.IsCollaborator (eventInfo e) e.Comment.User.Login, err := none }]) ∧
      (bot.handleIssueCommentEvent e (Config.configuration cf) w).2.trace
        = w1.trace ++
          [{ call := if e.Issue.IsPullRequest then Call.ReopenPR (eventInfo e)
                     else Call.ReopenIssue (eventInfo e),
             err := (bot.handleIssueCommentEvent e (Config.configuration cf) w).1 }] ∧
      (bot.handleIssueCommentEvent e (Config.configuration cf) w).1
        = if e.Issue.IsPullRequest then (bot.cli.ReopenPR (eventInfo e) w1.st).1
          else (bot.cli.ReopenIssue (eventInfo e) w1.st).1 := by
  have hmatch : MatchString reopenRe e.Comment.Body = true := by
    rw [hcomment]; exact reopenRe_matches_command body n hbody
  rw [handleIssueCommentEvent_of_config bot e cf bc w hact hcfg,
    handleLifeCycle_of_reopen bot e _ w hstate hmatch]
  refine ⟨_, rfl, ?_⟩
  by_cases hauth : e.Comment.User.Login = e.Issue.User.Login
  · cases hpr : e.Issue.IsPullRequest <;>
      simp [robot.open, robot.hasPermission, hauth, hpr, robot.callReopenPR,
        robot.callReopenIssue]
  · have hcol := hperm.resolve_left hauth
    cases hpr : e.Issue.IsPullRequest <;>
      simp [robot.open, robot.hasPermission, hauth, hpr, robot.callReopenPR,
        robot.callReopenIssue, robot.callIsCollaborator, hcol]

theorem reopen_by_authorized_commenter_witness :
    ∃ w1 : World Nat,
      w1 = ((newRobot (stubClient (true, none) none)).hasPermission
              (eventInfo (commentEvent exampleRepo 7 "closed" false "alice" "bob" "/ReOPEN  "))
              "bob" "alice" ⟨0, []⟩).2 ∧
      w1.trace = [] ++
        (if "bob" = "alice" then []
         else [{ call := Call.IsCollaborator
                   (eventInfo (commentEvent exampleRepo 7 "closed" false "alice" "bob" "/ReOPEN  "))
                   "bob", err := none }]) ∧
      ((newRobot (stubClient (true, none) none)).handleIssueCommentEvent
          (commentEvent exampleRepo 7 "closed" false "alice" "bob" "/ReOPEN  ")
          exampleConfig ⟨0, []⟩).2.trace
        = w1.trace ++
          [{ call := if false = true then
                       Call.ReopenPR
                         (eventInfo (commentEvent exampleRepo 7 "closed" false "alice" "bob" "/ReOPEN  "))
                     else
                       Call.ReopenIssue
                         (eventInfo (commentEvent exampleRepo 7 "closed" false "alice" "bob" "/ReOPEN  ")),
             err := ((newRobot (stubClient (true, none) none)).handleIssueCommentEvent
                      (commentEvent exampleRepo 7 "closed" false "alice" "bob" "/ReOPEN  ")
                      exampleConfig ⟨0, []⟩).1 }] ∧
      ((newRobot (stubClient (true, none) none)).handleIssueCommentEvent
          (commentEvent exampleRepo 7 "closed" false "alice" "bob" "/ReOPEN  ")
          exampleConfig ⟨0, []⟩).1
        = if false = true then
            ((stubClient (true, none) none).ReopenPR
              (eventInfo (commentEvent exampleRepo 7 "closed" false "alice" "bob" "/ReOPEN  "))
              w1.st).1
          else
            ((stubClient (true, none) none).ReopenIssue
              (eventInfo (commentEvent exampleRepo 7 "closed" false "alice" "bob" "/ReOPEN  "))
              w1.st).1 :=
  reopen_by_authorized_commenter (newRobot (stubClient (true, none) none))
    (commentEvent exampleRepo 7 "closed" false "alice" "bob" "/ReOPEN  ")
    (fun _ _ => some ()) () ⟨0, []⟩ ['/', 'R', 'e', 'O', 'P', 'E', 'N'] 2
    rfl rfl rfl (by simp) rfl (Or.inr rfl)

/-! ## Rejection, and the close command -/

/-- C3: for a `created` event on a closed item of a configured repository whose
comment matches the reopen pattern, whose commenter is not the author and is
reported not a collaborator (answer `false`, nil error): the calls the handler
makes are the `IsCollaborator` query followed by exactly one
`CreateIssueComment`, whose text contains `you can't reopen it unless you are
the author of it or a collaborator`; no `ReopenPR`, `ReopenIssue`, `ClosePR`
or `CloseIssue` call is made, and the handler returns the error of the comment
call. -/
theorem reopen_by_unauthorized_commenter {σ β : Type} (bot : robot σ) (e : IssueCommentEvent)
    (cf : String → String → Option β) (bc : β) (w : World σ)
    (hact : e.Action = "created")
    (hcfg : cf e.Repo.Owner.Login e.Repo.Name = some bc)
    (hstate : e.Issue.State = "closed")
    (hmatch : MatchString reopenRe e.Comment.Body = true)
    (hne : e.Comment.User.Login ≠ e.Issue.User.Login)
    (hcol : (bot.cli.IsCollaborator (eventInfo e) e.Comment.User.Login w.st).1 = (false, none)) :
    ∃ text : String,
      (bot.handleIssueCommentEvent e (Config.configuration cf) w).2.trace
        = w.trace ++
          [{ call := Call.IsCollaborator (eventInfo e) e.Comment.User.Login, err := none },
           { call := Call.CreateIssueComment (eventInfo e) text,
             err := (bot.handleIssueCommentEvent e (Config.configuration cf) w).1 }] ∧
      "you can't reopen it unless you are the author of it or a collaborator".data
        <:+: text.data := by
  rw [handleIssueCommentEvent_of_config bot e cf bc w hact hcfg,
    handleLifeCycle_of_reopen bot e _ w hstate hmatch]
  refine ⟨optionFailureMessage e.Comment.User.Login "reopen", ?_, ?_⟩
  · simp [robot.open, robot.hasPermission, hne, robot.callIsCollaborator, hcol,
      robot.callCreateIssueComment]
  · refine ⟨("***@" ++ e.Comment.User.Login ++ "*** ").data, ".".data, ?_⟩
    rw [optionFailureMessage_reopen]
    simp only [String.data_append, List.append_assoc]
    rfl

theorem reopen_by_unauthorized_commenter_witness :
    ∃ text : String,
      ((newRobot (stubClient (false, none) none)).handleIssueCommentEvent
          (commentEvent exampleRepo 7 "closed" true "alice" "bob" "/reopen")
          exampleConfig ⟨0, []⟩).2.trace
        = [] ++
          [{ call := Call.IsCollaborator
               (eventInfo (commentEvent exampleRepo 7 "closed" true "alice" "bob" "/reopen")) "bob",
             err := none },
           { call := Call.CreateIssueComment
               (eventInfo (commentEvent exampleRepo 7 "closed" true "alice" "bob" "/reopen")) text,
             err := ((newRobot (stubClient (false, none) none)).handleIssueCommentEvent
                      (commentEvent exampleRepo 7 "closed" true "alice" "bob" "/reopen")
                      exampleConfig ⟨0, []⟩).1 }] ∧
      "you can't reopen it unless you are the author of it or a collaborator".data
        <:+: text.data :=
  reopen_by_unauthorized_commenter (newRobot (stubClient (false, none) none))
    (commentEvent exampleRepo 7 "closed" true "alice" "bob" "/reopen")
    (fun _ _ => some ()) () ⟨0, []⟩ rfl rfl rfl (by decide) (by decide) rfl

/-- C4: for a `created` event on an open item of a configured repository whose
comment is `/close` and whose commenter is the author: the handler makes exactly
one call, `ClosePR` for a pull request and `CloseIssue` otherwise, and returns
its error; `IsCollaborator` is not called, and replacing the client's
`IsCollaborator` by any other function (one that answers `false` or fails
included) leaves the result, the client state and the trace unchanged. -/
theorem close_by_author {σ β : Type} (bot : robot σ) (e : IssueCommentEvent)
    (cf : String → String → Option β) (bc : β) (w : World σ)
    (hact : e.Action = "created")
    (hcfg : cf e.Repo.Owner.Login e.Repo.Name = some bc)
    (hstate : e.Issue.State = "open")
    (hbody : e.Comment.Body = "/close")
    (hauth : e.Comment.User.Login = e.Issue.User.Login) :
    (bot.handleIssueCommentEvent e (Config.configuration cf) w).2.trace
        = w.trace ++
          [{ call := if e.Issue.IsPullRequest then Call.ClosePR (eventInfo e)
                     else Call.CloseIssue (eventInfo e),
             err := (bot.handleIssueCommentEvent e (Config.configuration cf) w).1 }] ∧
      (bot.handleIssueCommentEvent e (Config.configuration cf) w).1
        = (if e.Issue.IsPullRequest then (bot.cli.ClosePR (eventInfo e) w.st).1
           else (bot.cli.CloseIssue (eventInfo e) w.st).1) ∧
      ∀ f : PRInfo → String → σ → (Bool × error) × σ,
        ({ cli := { bot.cli with IsCollaborator := f } } : robot σ).handleIssueCommentEvent e
            (Config.configuration cf) w
          = bot.handleIssueCommentEvent e (Config.configuration cf) w := by
  have hmatch : MatchString closeRe e.Comment.Body = true := by rw [hbody]; decide
  refine ⟨?_, ?_, ?_⟩
  · rw [handleIssueCommentEvent_of_config bot e cf bc w hact hcfg,
      handleLifeCycle_of_close bot e _ w hstate hmatch]
    cases hpr : e.Issue.IsPullRequest <;>
      simp [robot.close, robot.hasPermission, hauth, hpr, robot.callClosePR,
        robot.callCloseIssue]
  · rw [handleIssueCommentEvent_of_config bot e cf bc w hact hcfg,
      handleLifeCycle_of_close bot e _ w hstate hmatch]
    cases hpr : e.Issue.IsPullRequest <;>
      simp [robot.close, robot.hasPermission, hauth, hpr, robot.callClosePR,
        robot.callCloseIssue]
  · intro f
    rw [handleIssueCommentEvent_of_config bot e cf bc w hact hcfg,
      handleIssueCommentEvent_of_config _ e cf bc w hact hcfg,
      handleLifeCycle_of_close bot e _ w hstate hmatch,
      handleLifeCycle_of_close _ e _ w hstate hmatch]
    cases hpr : e.Issue.IsPullRequest <;>
      simp [robot.close, robot.hasPermission, hauth, hpr, robot.callClosePR,
        robot.callCloseIssue]

theorem close_by_author_witness :
    ((newRobot (stubClient (false, some "boom") none)).handleIssueCommentEvent
          (commentEvent exampleRepo 7 "open" true "alice" "alice" "/close")
          exampleConfig ⟨0, []⟩).2.trace
        = [{ call := Call.ClosePR ⟨"openeuler", "community", 7⟩, err := none }] :=
  (close_by_author (newRobot (stubClient (false, some "boom") none))
    (commentEvent exampleRepo 7 "open" true "alice" "alice" "/close")
    (fun _ _ => some ()) () ⟨0, []⟩ rfl rfl rfl rfl rfl).1

/-- C5: for a `created` event on an open item whose comment matches the close
pattern, whose commenter is not the author and is reported not a collaborator
(answer `false`, nil error): the close flow makes the `IsCollaborator` query
and then exactly one `CreateIssueComment` call, whose text is exactly
`***@<commenter>*** you can't reopen it unless you are the author of it or a
collaborator.` (the word is `reopen`), returns the error of that call and makes
no close call; for a configured repository this is the run of the handler. -/
theorem close_by_unauthorized_commenter {σ : Type} (bot : robot σ) (e : IssueCommentEvent)
    (p : PRInfo) (w : World σ)
    (hact : e.Action = "created")
    (hstate : e.Issue.State = "open")
    (hmatch : MatchString closeRe e.Comment.Body = true)
    (hne : e.Comment.User.Login ≠ e.Issue.User.Login)
    (hcol : (bot.cli.IsCollaborator p e.Comment.User.Login w.st).1 = (false, none)) :
    bot.handleLifeCycle e p w = bot.close e p e.Comment.User.Login e.Issue.User.Login w ∧
      (bot.close e p e.Comment.User.Login e.Issue.User.Login w).2.trace
        = w.trace ++
          [{ call := Call.IsCollaborator p e.Comment.User.Login, err := none },
           { call := Call.CreateIssueComment p
               ("***@" ++ e.Comment.User.Login
                 ++ "*** you can't reopen it unless you are the author of it or a collaborator."),
             err := (bot.close e p e.Comment.User.Login e.Issue.User.Login w).1 }] ∧
      ∀ (β : Type) (cf : String → String → Option β) (bc : β),
        p = eventInfo e → cf e.Repo.Owner.Login e.Repo.Name = some bc →
        bot.handleIssueCommentEvent e (Config.configuration cf) w
          = bot.close e p e.Comment.User.Login e.Issue.User.Login w := by
  have hlc := handleLifeCycle_of_close bot e p w hstate hmatch
  refine ⟨hlc, ?_, ?_⟩
  · simp [robot.close, robot.hasPermission, hne, robot.callIsCollaborator, hcol,
      robot.callCreateIssueComment, optionFailureMessage_reopen]
  · intro β cf bc hp hcfg
    rw [handleIssueCommentEvent_of_config bot e cf bc w hact hcfg, ← hp, hlc]

theorem close_by_unauthorized_commenter_witness :
    ((newRobot (stubClient (false, none) none)).close
          (commentEvent exampleRepo 7 "open" false "alice" "bob" "/close")
          ⟨"openeuler", "community", 7⟩ "bob" "alice" ⟨0, []⟩).2.trace
        = [{ call := Call.IsCollaborator ⟨"openeuler", "community", 7⟩ "bob", err := none },
           { call := Call.CreateIssueComment ⟨"openeuler", "community", 7⟩
               "***@bob*** you can't reopen it unless you are the author of it or a collaborator.",
             err := none }] :=
  (close_by_unauthorized_commenter (newRobot (stubClient (false, none) none))
    (commentEvent exampleRepo 7 "open" false "alice" "bob" "/close")
    ⟨"openeuler", "community", 7⟩ ⟨0, []⟩ rfl rfl (by decide) (by decide) rfl).2.1

/-! ## Shape of a run -/

theorem open_shape {σ : Type} (bot : robot σ) (e : IssueCommentEvent) (p : PRInfo)
    (commenter author : String) (w : World σ) :
    ∃ new : List Entry, (bot.open e p commenter author w).2.trace = w.trace ++ new ∧
      FlowShape p commenter (bot.open e p commenter author w).1 new := by
  unfold FlowShape
  by_cases hauth : commenter = author
  · cases hpr : e.Issue.IsPullRequest
    · refine ⟨[⟨Call.ReopenIssue p, (bot.cli.ReopenIssue p w.st).1⟩], ?_,
        Or.inr ⟨[], Call.ReopenIssue p, Or.inl rfl, ?_, ?_⟩⟩ <;>
        simp [robot.open, robot.hasPermission, hauth, hpr, robot.callReopenIssue, Call.isStateChange]
    · refine ⟨[⟨Call.ReopenPR p, (bot.cli.ReopenPR p w.st).1⟩], ?_,
        Or.inr ⟨[], Call.ReopenPR p, Or.inl rfl, ?_, ?_⟩⟩ <;>
        simp [robot.open, robot.hasPermission, hauth, hpr, robot.callReopenPR, Call.isStateChange]
  · rcases hc : bot.cli.IsCollaborator p commenter w.st with ⟨⟨b, err⟩, s⟩
    cases err with
    | some msg =>
      refine ⟨[⟨Call.IsCollaborator p commenter, some msg⟩], ?_, Or.inl ⟨msg, ?_, rfl⟩⟩ <;>
        simp [robot.open, robot.hasPermission, hauth, robot.callIsCollaborator, hc]
    | none =>
      cases b
      · refine ⟨[⟨Call.IsCollaborator p commenter, none⟩,
            ⟨Call.CreateIssueComment p (optionFailureMessage commenter "reopen"),
              (bot.cli.CreateIssueComment p (optionFailureMessage commenter "reopen") s).1⟩], ?_,
            Or.inr ⟨[_], Call.CreateIssueComment p (optionFailureMessage commenter "reopen"),
              Or.inr rfl, ?_, ?_⟩⟩ <;>
          simp [robot.open, robot.hasPermission, hauth, robot.callIsCollaborator, hc,
            robot.callCreateIssueComment, Call.isComment]
      · cases hpr : e.Issue.IsPullRequest
        · refine ⟨[⟨Call.IsCollaborator p commenter, none⟩,
              ⟨Call.ReopenIssue p, (bot.cli.ReopenIssue p s).1⟩], ?_,
              Or.inr ⟨[_], Call.ReopenIssue p, Or.inr rfl, ?_, ?_⟩⟩ <;>
            simp [robot.open, robot.hasPermission, hauth, robot.callIsCollaborator, hc, hpr,
              robot.callReopenIssue, Call.isStateChange]
        · refine ⟨[⟨Call.IsCollaborator p commenter, none⟩,
              ⟨Call.ReopenPR p, (bot.cli.ReopenPR p s).1⟩], ?_,
              Or.inr ⟨[_], Call.ReopenPR p, Or.inr rfl, ?_, ?_⟩⟩ <;>
            simp [robot.open, robot.hasPermission, hauth, robot.callIsCollaborator, hc, hpr,
              robot.callReopenPR, Call.isStateChange]

theorem close_shape {σ : Type} (bot : robot σ) (e : IssueCommentEvent) (p : PRInfo)
    (commenter author : String) (w : World σ) :
    ∃ new : List Entry, (bot.close e p commenter author w).2.trace = w.trace ++ new ∧
      FlowShape p commenter (bot.close e p commenter author w).1 new := by
  unfold FlowShape
  by_cases hauth : commenter = author
  · cases hpr : e.Issue.IsPullRequest
    · refine ⟨[⟨Call.CloseIssue p, (bot.cli.CloseIssue p w.st).1⟩], ?_,
        Or.inr ⟨[], Call.CloseIssue p, Or.inl rfl, ?_, ?_⟩⟩ <;>
        simp [robot.close, robot.hasPermission, hauth, hpr, robot.callCloseIssue, Call.isStateChange]
    · refine ⟨[⟨Call.ClosePR p, (bot.cli.ClosePR p w.st).1⟩], ?_,
        Or.inr ⟨[], Call.ClosePR p, Or.inl rfl, ?_, ?_⟩⟩ <;>
        simp [robot.close, robot.hasPermission, hauth, hpr, robot.callClosePR, Call.isStateChange]
  · rcases hc : bot.cli.IsCollaborator p commenter w.st with ⟨⟨b, err⟩, s⟩
    cases err with
    | some msg =>
      refine ⟨[⟨Call.IsCollaborator p commenter, some msg⟩], ?_, Or.inl ⟨msg, ?_, rfl⟩⟩ <;>
        simp [robot.close, robot.hasPermission, hauth, robot.callIsCollaborator, hc]
    | none =>
      cases b
      · refine ⟨[⟨Call.IsCollaborator p commenter, none⟩,
            ⟨Call.CreateIssueComment p (optionFailureMessage commenter "reopen"),
              (bot.cli.CreateIssueComment p (optionFailureMessage commenter "reopen") s).1⟩], ?_,
            Or.inr ⟨[_], Call.CreateIssueComment p (optionFailureMessage commenter "reopen"),
              Or.inr rfl, ?_, ?_⟩⟩ <;>
          simp [robot.close, robot.hasPermission, hauth, robot.callIsCollaborator, hc,
            robot.callCreateIssueComment, Call.isComment]
      · cases hpr : e.Issue.IsPullRequest
        · refine ⟨[⟨Call.IsCollaborator p commenter, none⟩,
              ⟨Call.CloseIssue p, (bot.cli.CloseIssue p s).1⟩], ?_,
              Or.inr ⟨[_], Call.CloseIssue p, Or.inr rfl, ?_, ?_⟩⟩ <;>
            simp [robot.close, robot.hasPermission, hauth, robot.callIsCollaborator, hc, hpr,
              robot.callCloseIssue, Call.isStateChange]
        · refine ⟨[⟨Call.IsCollaborator p commenter, none⟩,
              ⟨Call.ClosePR p, (bot.cli.ClosePR p s).1⟩], ?_,
              Or.inr ⟨[_], Call.ClosePR p, Or.inr rfl, ?_, ?_⟩⟩ <;>
            simp [robot.close, robot.hasPermission, hauth, robot.callIsCollaborator, hc, hpr,
              robot.callClosePR, Call.isStateChange]

theorem handleLifeCycle_shape {σ : Type} (bot : robot σ) (e : IssueCommentEvent) (p : PRInfo)
    (w : World σ) :
    ∃ new : List Entry, (bot.handleLifeCycle e p w).2.trace = w.trace ++ new ∧
      ((new = [] ∧ ¬ reachesFlow e) ∨
        FlowShape p e.Comment.User.Login (bot.handleLifeCycle e p w).1 new) := by
  by_cases h1 : e.Issue.State = "closed" ∧ MatchString reopenRe e.Comment.Body = true
  · rw [handleLifeCycle_of_reopen bot e p w h1.1 h1.2]
    obtain ⟨new, hn, hs⟩ := open_shape bot e p e.Comment.User.Login e.Issue.User.Login w
    exact ⟨new, hn, Or.inr hs⟩
  · by_cases h2 : e.Issue.State = "open" ∧ MatchString closeRe e.Comment.Body = true
    · rw [handleLifeCycle_of_close bot e p w h2.1 h2.2]
      obtain ⟨new, hn, hs⟩ := close_shape bot e p e.Comment.User.Login e.Issue.User.Login w
      exact ⟨new, hn, Or.inr hs⟩
    · refine ⟨[], ?_, Or.inl ⟨rfl, ?_⟩⟩
      · simp only [robot.handleLifeCycle, if_neg h1, if_neg h2, List.append_nil]
      · intro h
        rcases h with h | h
        · exact h1 h
        · exact h2 h

theorem handleIssueCommentEvent_shape {σ β : Type} (bot : robot σ) (e : IssueCommentEvent)
    (cfg : Config β) (w : World σ) :
    ∃ new : List Entry, (bot.handleIssueCommentEvent e cfg w).2.trace = w.trace ++ new ∧
      (new = [] ∨
        FlowShape (eventInfo e) e.Comment.User.Login (bot.handleIssueCommentEvent e cfg w).1 new) := by
  by_cases hact : e.Action = "created"
  · cases cfg with
    | other =>
      exact ⟨[], by simp [robot.handleIssueCommentEvent, robot.getConfig, createAction, hact],
        Or.inl rfl⟩
    | configuration cf =>
      cases hcfg : cf e.Repo.Owner.Login e.Repo.Name with
      | none =>
        exact ⟨[], by simp [robot.handleIssueCommentEvent, robot.getConfig, createAction, hact,
          GetOrgRepo, hcfg], Or.inl rfl⟩
      | some bc =>
        rw [handleIssueCommentEvent_of_config bot e cf bc w hact hcfg]
        obtain ⟨new, hn, hs⟩ := handleLifeCycle_shape bot e (eventInfo e) w
        exact ⟨new, hn, hs.imp (fun h => h.1) id⟩
  · exact ⟨[], by simp [robot.handleIssueCommentEvent, createAction, hact], Or.inl rfl⟩

theorem Call.not_isUpdate_of_effect (c : Call) (h : (c.isComment || c.isStateChange) = true) :
    c.isUpdate = false := by
  cases c <;> simp_all [Call.isComment, Call.isStateChange, Call.isUpdate]

/-- C9: for every event, every configuration, every client and every client
state, among the calls made by one run of the handler at most one is a
`CreateIssueComment`, `ReopenPR`, `ReopenIssue`, `ClosePR` or `CloseIssue` call
(so a run never both posts a comment and changes the state of the item), and
none is an `UpdatePR` or `UpdateIssue` call. -/
theorem handleIssueCommentEvent_at_most_one_effect {σ β : Type} (bot : robot σ)
    (e : IssueCommentEvent) (cfg : Config β) (w : World σ) :
    ∃ new : List Entry, (bot.handleIssueCommentEvent e cfg w).2.trace = w.trace ++ new ∧
      (new.filter (fun en => en.call.isComment || en.call.isStateChange)).length ≤ 1 ∧
      ∀ en ∈ new, en.call.isUpdate = false := by
  obtain ⟨new, hn, hs⟩ := handleIssueCommentEvent_shape bot e cfg w
  refine ⟨new, hn, ?_⟩
  rcases hs with rfl | ⟨msg, _, rfl⟩ | ⟨pre, c, hpre, hc, rfl⟩
  · simp
  · simp [Call.isComment, Call.isStateChange, Call.isUpdate]
  · have hu := Call.not_isUpdate_of_effect c hc
    rcases hpre with rfl | rfl
    · refine ⟨(List.length_filter_le _ _).trans (by simp), ?_⟩
      intro en hen
      simp only [List.nil_append, List.mem_singleton] at hen
      subst hen
      exact hu
    · refine ⟨?_, ?_⟩
      · rw [List.filter_append]
        have hf : List.filter (fun en : Entry => en.call.isComment || en.call.isStateChange)
            [{ call := Call.IsCollaborator (eventInfo e) e.Comment.User.Login, err := none }]
            = [] := rfl
        rw [hf]
        exact (List.length_filter_le _ _).trans (by simp)
      · intro en hen
        simp only [List.singleton_append, List.mem_cons, List.mem_singleton, List.not_mem_nil,
          or_false] at hen
        rcases hen with rfl | rfl
        · rfl
        · exact hu

/-! ## Failing calls -/

theorem open_head {σ : Type} (bot : robot σ) (e : IssueCommentEvent) (p : PRInfo)
    (commenter author : String) (w : World σ) (hne : commenter ≠ author) :
    ∃ rest : List Entry, (bot.open e p commenter author w).2.trace
      = w.trace ++ ({ call := Call.IsCollaborator p commenter,
                      err := (bot.cli.IsCollaborator p commenter w.st).1.2 } :: rest) := by
  rcases hc : bot.cli.IsCollaborator p commenter w.st with ⟨⟨b, err⟩, s⟩
  cases err with
  | some msg =>
    exact ⟨[], by simp [robot.open, robot.hasPermission, hne, robot.callIsCollaborator, hc]⟩
  | none =>
    cases b
    · exact ⟨[⟨Call.CreateIssueComment p (optionFailureMessage commenter "reopen"),
          (bot.cli.CreateIssueComment p (optionFailureMessage commenter "reopen") s).1⟩],
        by simp [robot.open, robot.hasPermission, hne, robot.callIsCollaborator, hc,
          robot.callCreateIssueComment]⟩
    · cases hpr : e.Issue.IsPullRequest
      · exact ⟨[⟨Call.ReopenIssue p, (bot.cli.ReopenIssue p s).1⟩],
          by simp [robot.open, robot.hasPermission, hne, robot.callIsCollaborator, hc, hpr,
            robot.callReopenIssue]⟩
      · exact ⟨[⟨Call.ReopenPR p, (bot.cli.ReopenPR p s).1⟩],
          by simp [robot.open, robot.hasPermission, hne, robot.callIsCollaborator, hc, hpr,
            robot.callReopenPR]⟩

theorem close_head {σ : Type} (bot : robot σ) (e : IssueCommentEvent) (p : PRInfo)
    (commenter author : String) (w : World σ) (hne : commenter ≠ author) :
    ∃ rest : List Entry, (bot.close e p commenter author w).2.trace
      = w.trace ++ ({ call := Call.IsCollaborator p commenter,
                      err := (bot.cli.IsCollaborator p commenter w.st).1.2 } :: rest) := by
  rcases hc : bot.cli.IsCollaborator p commenter w.st with ⟨⟨b, err⟩, s⟩
  cases err with
  | some msg =>
    exact ⟨[], by simp [robot.close, robot.hasPermission, hne, robot.callIsCollaborator, hc]⟩
  | none =>
    cases b
    · exact ⟨[⟨Call.CreateIssueComment p (optionFailureMessage commenter "reopen"),
          (bot.cli.CreateIssueComment p (optionFailureMessage commenter "reopen") s).1⟩],
        by simp [robot.close, robot.hasPermission, hne, robot.callIsCollaborator, hc,
          robot.callCreateIssueComment]⟩
    · cases hpr : e.Issue.IsPullRequest
      · exact ⟨[⟨Call.CloseIssue p, (bot.cli.CloseIssue p s).1⟩],
          by simp [robot.close, robot.hasPermission, hne, robot.callIsCollaborator, hc, hpr,
            robot.callCloseIssue]⟩
      · exact ⟨[⟨Call.ClosePR p, (bot.cli.ClosePR p s).1⟩],
          by simp [robot.close, robot.hasPermission, hne, robot.callIsCollaborator, hc, hpr,
            robot.callClosePR]⟩

theorem handleLifeCycle_head {σ : Type} (bot : robot σ) (e : IssueCommentEvent) (p : PRInfo)
    (w : World σ) (hflow : reachesFlow e) (hne : e.Comment.User.Login ≠ e.Issue.User.Login) :
    ∃ rest : List Entry, (bot.handleLifeCycle e p w).2.trace
      = w.trace ++ ({ call := Call.IsCollaborator p e.Comment.User.Login,
                      err := (bot.cli.IsCollaborator p e.Comment.User.Login w.st).1.2 } :: rest) := by
  by_cases h1 : e.Issue.State = "closed" ∧ MatchString reopenRe e.Comment.Body = true
  · rw [handleLifeCycle_of_reopen bot e p w h1.1 h1.2]
    exact open_head bot e p _ _ w hne
  · have h2 : e.Issue.State = "open" ∧ MatchString closeRe e.Comment.Body = true :=
      hflow.resolve_left h1
    rw [handleLifeCycle_of_close bot e p w h2.1 h2.2]
    exact close_head bot e p _ _ w hne

theorem FlowShape.failure_last {p : PRInfo} {commenter : String} {res : error}
    {new : List Entry} (hs : FlowShape p commenter res new)
    (pre : List Entry) (en : Entry) (post : List Entry)
    (hsplit : new = pre ++ en :: post) (herr : en.err ≠ none) :
    post = [] ∧ res = en.err ∧
      ∀ x ∈ pre, x.call.isComment = false ∧ x.call.isStateChange = false := by
  rcases hs with ⟨msg, hres, rfl⟩ | ⟨pre0, c, hpre, _, rfl⟩
  · rcases pre with _ | ⟨x, pre⟩
    · simp only [List.nil_append, List.cons.injEq] at hsplit
      obtain ⟨rfl, rfl⟩ := hsplit
      exact ⟨rfl, hres, by simp⟩
    · simp at hsplit
  · rcases hpre with rfl | rfl
    · rcases pre with _ | ⟨x, pre⟩
      · simp only [List.nil_append, List.cons.injEq] at hsplit
        obtain ⟨rfl, rfl⟩ := hsplit
        exact ⟨rfl, rfl, by simp⟩
      · simp at hsplit
    · rcases pre with _ | ⟨x, _ | ⟨y, pre⟩⟩
      · simp only [List.nil_append, List.singleton_append, List.cons.injEq] at hsplit
        obtain ⟨rfl, _⟩ := hsplit
        exact absurd rfl herr
      · simp only [List.singleton_append, List.cons.injEq] at hsplit
        obtain ⟨rfl, rfl, rfl⟩ := hsplit
        refine ⟨rfl, rfl, ?_⟩
        intro x hx
        rw [List.mem_singleton] at hx
        subst hx
        exact ⟨rfl, rfl⟩
      · simp at hsplit

/-- C10: for a `created` event of a configured repository that reaches the open
or the close flow, the handler makes at least one call; when the commenter is
not the author the first call is the `IsCollaborator` query, recorded with the
error the client returned; and whichever call returns a non-nil error is the
last call of the run, its error is what the handler returns, and no comment and
no state change was made before it.  So a failed `IsCollaborator` query is
followed by no comment and no state change, and a failed reopen or close call
is neither retried nor followed by a comment. -/
theorem first_failure_is_returned {σ β : Type} (bot : robot σ) (e : IssueCommentEvent)
    (cf : String → String → Option β) (bc : β) (w : World σ)
    (hact : e.Action = "created")
    (hcfg : cf e.Repo.Owner.Login e.Repo.Name = some bc)
    (hflow : reachesFlow e) :
    ∃ new : List Entry,
      (bot.handleIssueCommentEvent e (Config.configuration cf) w).2.trace = w.trace ++ new ∧
      new ≠ [] ∧
      (e.Comment.User.Login ≠ e.Issue.User.Login →
        new.head? = some
          { call := Call.IsCollaborator (eventInfo e) e.Comment.User.Login,
            err := (bot.cli.IsCollaborator (eventInfo e) e.Comment.User.Login w.st).1.2 }) ∧
      ∀ (pre : List Entry) (en : Entry) (post : List Entry),
        new = pre ++ en :: post → en.err ≠ none →
        post = [] ∧
          (bot.handleIssueCommentEvent e (Config.configuration cf) w).1 = en.err ∧
          ∀ x ∈ pre, x.call.isComment = false ∧ x.call.isStateChange = false := by
  rw [handleIssueCommentEvent_of_config bot e cf bc w hact hcfg]
  obtain ⟨new, hn, hs⟩ := handleLifeCycle_shape bot e (eventInfo e) w
  have hshape : FlowShape (eventInfo e) e.Comment.User.Login
      (bot.handleLifeCycle e (eventInfo e) w).1 new := by
    rcases hs with ⟨_, hnot⟩ | hs
    · exact absurd hflow hnot
    · exact hs
  refine ⟨new, hn, ?_, ?_, ?_⟩
  · rcases hshape with ⟨msg, _, rfl⟩ | ⟨pre0, c, _, _, rfl⟩ <;> simp
  · intro hne
    obtain ⟨rest, hr⟩ := handleLifeCycle_head bot e (eventInfo e) w hflow hne
    rw [hn] at hr
    rw [List.append_cancel_left hr]
    rfl
  · intro pre en post hsplit herr
    exact hshape.failure_last pre en post hsplit herr

theorem first_failure_is_returned_witness :
    ∃ new : List Entry,
      ((newRobot (stubClient (true, none) (some "boom"))).handleIssueCommentEvent
          (commentEvent exampleRepo 7 "closed" true "alice" "bob" "/reopen")
          exampleConfig ⟨0, []⟩).2.trace = [] ++ new ∧
      new ≠ [] ∧
      ("bob" ≠ "alice" →
        new.head? = some
          { call := Call.IsCollaborator ⟨"openeuler", "community", 7⟩ "bob",
            err := ((stubClient (true, none) (some "boom")).IsCollaborator
                     ⟨"openeuler", "community", 7⟩ "bob" 0).1.2 }) ∧
      ∀ (pre : List Entry) (en : Entry) (post : List Entry),
        new = pre ++ en :: post → en.err ≠ none →
        post = [] ∧
          ((newRobot (stubClient (true, none) (some "boom"))).handleIssueCommentEvent
            (commentEvent exampleRepo 7 "closed" true "alice" "bob" "/reopen")
            exampleConfig ⟨0, []⟩).1 = en.err ∧
          ∀ x ∈ pre, x.call.isComment = false ∧ x.call.isStateChange = false :=
  first_failure_is_returned (newRobot (stubClient (true, none) (some "boom")))
    (commentEvent exampleRepo 7 "closed" true "alice" "bob" "/reopen")
    (fun _ _ => some ()) () ⟨0, []⟩ rfl rfl (Or.inl ⟨rfl, by decide⟩)

end Lifecycle
